import Mathlib

/-!
Shallow embedding of the item/attachment resolution engine of
rofi-zotero.py.

Modelling conventions:
* Python strings are Lean `String` (a structure wrapping `List Char`,
  matching Python's sequence-of-code-points view of `str`); comparisons of
  display labels use the lexicographic order on the underlying `List Char`,
  which is exactly Python's code-point string order.
* Python dicts are insertion-ordered association lists `List (Nat × _)`;
  item identifiers (sqlite `itemID`) are `Nat`.
* `pathlib` paths are modelled by the strings they print to, with the
  `PurePosixPath` join rule: joining with an absolute right operand
  discards the left operand.
* Fallible code is modelled with `Option`: `none` marks an uncaught
  Python exception (`IndexError` on `all_authors[0][0]` and
  `author_list[0]`, `KeyError` on `keys[path_id]`).
* The float `ending_fraction` of `format_path` is modelled exactly by a
  fraction of naturals `efNum / efDen` (the program only ever uses 0.5,
  which is an exact binary float), and Python's `round` by
  round-half-to-even on that exact fraction.
-/

/-- Python `s.startswith(pre)` (used at lines 394 and 397 of the source). -/
def pyStartswith (s pre : String) : Bool :=
  pre.data.isPrefixOf s.data

/-- Remove the first occurrence of `pat` from a character list; this is the
effect of Python `s.replace(pat, "", 1)` on the character sequence. -/
def removeFirst (pat : List Char) : List Char → List Char
  | [] => []
  | c :: cs =>
    if pat.isPrefixOf (c :: cs) then (c :: cs).drop pat.length
    else c :: removeFirst pat cs

/-- Python `s.replace(pat, "", 1)` (source lines 395 and 398). -/
def pyReplaceFirst (s pat : String) : String :=
  ⟨removeFirst pat.data s.data⟩

/-- The `pathlib` `/` operator on the string view of a `PurePosixPath`: an
absolute right operand replaces the left operand (source lines 396 and
399). -/
def pjoin (a b : String) : String :=
  if pyStartswith b ("/") then b else a ++ ("/") ++ b

/-- The `pathlib.Path.name` attribute: the component after the last slash
(source line 177). -/
def pathName (p : String) : String :=
  ⟨(p.data.reverse.takeWhile (fun c => ¬ c = '/')).reverse⟩

/-- Source function `format_authors` (lines 130-152), with the templates of
lines 39-41 substituted: one author gives the bare name, two authors give
"A and B", three or more give "A et al.".  On an empty list the source
raises `IndexError` (`author_list[0]` in the else branch), modelled as
`none`. -/
def format_authors : List String → Option String
  | [] => none
  | [a1] => some a1
  | [a1, a2] => some (a1 ++ (" and ") ++ a2)
  | a1 :: _ :: _ :: _ => some (a1 ++ (" et al."))

/-- Assignment `m[k] = v` on an insertion-ordered Python dict: update in
place when the key is present, otherwise append at the end. -/
def dinsert (m : List (Nat × String)) (k : Nat) (v : String) : List (Nat × String) :=
  if (m.lookup k).isSome then m.map (fun p => if p.1 = k then (k, v) else p)
  else m ++ [(k, v)]

/-- Loop body of the author reconciliation (source lines 366-372).  The
state is the current group identifier `id`, the running `author_list`, and
the `authors` dict.  When the identifier changes the finished group is
formatted and stored under the previous identifier.  Faithfully to the
source, nothing is flushed when the row list is exhausted: the final group
is dropped. -/
def authorsGo : Nat → List String → List (Nat × String) → List (Nat × String) →
    Option (List (Nat × String))
  | _, _, authors, [] => some authors
  | id, alist, authors, (aid, a) :: rest =>
    if ¬ aid = id then
      match format_authors alist with
      | none => none
      | some s => authorsGo aid [a] (dinsert authors id s) rest
    else
      authorsGo id (alist ++ [a]) authors rest

/-- Author reconciliation (source lines 363-372).  The initial group
identifier is `all_authors[0][0]`, which raises `IndexError` on an empty
row list (`none` here). -/
def authorsRecon (rows : List (Nat × String)) : Option (List (Nat × String)) :=
  match rows with
  | [] => none
  | (i0, _) :: _ => authorsGo i0 [] [] rows

/-- First-seen-wins fold over the title rows (source lines 374-379): builds
the `titles` and `keys` dicts in row order, ignoring later rows for an
identifier already present. -/
def titlesKeysGo : List (Nat × String) → List (Nat × String) →
    List (Nat × String × String) → List (Nat × String) × List (Nat × String)
  | titles, keys, [] => (titles, keys)
  | titles, keys, (tid, title, key) :: rest =>
    if (titles.lookup tid).isSome then titlesKeysGo titles keys rest
    else titlesKeysGo (titles ++ [(tid, title)]) (keys ++ [(tid, key)]) rest

/-- The `titles`/`keys` reconciliation of source lines 374-379. -/
def titlesKeysFold (rows : List (Nat × String × String)) :
    List (Nat × String) × List (Nat × String) :=
  titlesKeysGo [] [] rows

/-- The characters of `l` before the first occurrence of `sep`: the effect
of Python `l.split(sep)[0]` for a one-character separator. -/
def headBefore (sep : Char) : List Char → List Char
  | [] => []
  | c :: cs => if c = sep then [] else c :: headBefore sep cs

/-- Python `date.split("-")[0]` (source line 384). -/
def pySplitFirst (d : String) : String :=
  ⟨headBefore '-' d.data⟩

/-- First-seen-wins fold over the date rows (source lines 381-384),
storing the substring of the date before the first dash. -/
def yearsGo : List (Nat × String) → List (Nat × String) → List (Nat × String)
  | years, [] => years
  | years, (did, date) :: rest =>
    if (years.lookup did).isSome then yearsGo years rest
    else yearsGo (years ++ [(did, pySplitFirst date)]) rest

/-- The `years` reconciliation of source lines 381-384. -/
def yearsFold (rows : List (Nat × String)) : List (Nat × String) :=
  yearsGo [] rows

/-- Python truthiness of an optional string: `None` and the empty string
are falsy, every other string is truthy. -/
def truthy : Option String → Bool
  | none => false
  | some s => ¬ s = ("")

/-- Source function `format_item` (lines 191-220) with the templates of
lines 34-37 substituted.  Branch selection is by Python truthiness of the
`author` and `year` arguments (`if author and year: ... elif author: ...
elif year: ... else: ...`). -/
def format_item (title : String) (author year : Option String) : String :=
  if truthy author && truthy year then
    author.getD ("") ++ (" (") ++ year.getD ("") ++ (") - ") ++ title
  else if truthy author then
    author.getD ("") ++ (" - ") ++ title
  else if truthy year then
    ("Unknown (") ++ year.getD ("") ++ (") - ") ++ title
  else
    ("Unknown - ") ++ title

/-- Resolution of one raw path expression (source lines 394-401), with the
storage key of the owning item passed in as `key`: an `attachments:`-
prefixed expression is stripped and joined to the base directory, a
`storage:`-prefixed expression is stripped and joined to
`dataDir/storage/key`, and any other expression is used as-is
(`Path(path)`). -/
def resolvePath (key baseDir dataDir raw : String) : String :=
  if pyStartswith raw ("attachments:") then
    pjoin baseDir (pyReplaceFirst raw ("attachments:"))
  else if pyStartswith raw ("storage:") then
    pjoin (pjoin (pjoin dataDir ("storage")) key) (pyReplaceFirst raw ("storage:"))
  else
    raw

/-- The single-quote character, as printed by Python's `repr` of a path. -/
def squote : String :=
  String.singleton (Char.ofNat 39)

/-- Python `repr` of a `PosixPath` value. -/
def pyReprPath (p : String) : String :=
  ("PosixPath(") ++ squote ++ p ++ squote ++ (")")

/-- Python `str()` of a list of `PosixPath` values; this is the left-hand
side of the comparison `str(paths[path_id]) == path` in the deduplication
test on source line 391. -/
def pyStrPathList (l : List String) : String :=
  ("[") ++ String.intercalate (", ") (l.map pyReprPath) ++ ("]")

/-- Source lines 403-405: create the entry with an empty list when the
identifier is absent, then append the resolved path. -/
def dappend (m : List (Nat × List String)) (k : Nat) (v : String) :
    List (Nat × List String) :=
  if (m.lookup k).isSome then
    m.map (fun p => if p.1 = k then (p.1, p.2 ++ [v]) else p)
  else
    m ++ [(k, [v])]

/-- The resolve-and-append step for one non-null, non-deduplicated path row
(source lines 394-405).  A `storage:`-prefixed row whose identifier has no
entry in `keys` raises `KeyError` at `keys[path_id]` (`none` here). -/
def pathsStep (keys : List (Nat × String)) (baseDir dataDir : String)
    (acc : List (Nat × List String)) (pid : Nat) (raw : String) :
    Option (List (Nat × List String)) :=
  if pyStartswith raw ("attachments:") then
    some (dappend acc pid (pjoin baseDir (pyReplaceFirst raw ("attachments:"))))
  else if pyStartswith raw ("storage:") then
    match keys.lookup pid with
    | none => none
    | some k =>
      some (dappend acc pid
        (pjoin (pjoin (pjoin dataDir ("storage")) k) (pyReplaceFirst raw ("storage:"))))
  else
    some (dappend acc pid raw)

/-- The path-resolution loop (source lines 386-405).  Null paths are
skipped.  The deduplication test of line 391 is
`path_id in paths and str(paths[path_id]) == path`: it compares the
`str()` of the whole list of already-recorded resolved paths with the raw
(unresolved) expression of the current row. -/
def pathsGo (keys : List (Nat × String)) (baseDir dataDir : String) :
    List (Nat × List String) → List (Nat × Option String) →
    Option (List (Nat × List String))
  | acc, [] => some acc
  | acc, (_, none) :: rest => pathsGo keys baseDir dataDir acc rest
  | acc, (pid, some raw) :: rest =>
    if (acc.lookup pid).isSome ∧ pyStrPathList ((acc.lookup pid).getD []) = raw then
      pathsGo keys baseDir dataDir acc rest
    else
      match pathsStep keys baseDir dataDir acc pid raw with
      | none => none
      | some acc2 => pathsGo keys baseDir dataDir acc2 rest

/-- The `paths` dict built from the path rows (source lines 386-405). -/
def pathsFold (keys : List (Nat × String)) (baseDir dataDir : String)
    (rows : List (Nat × Option String)) : Option (List (Nat × List String)) :=
  pathsGo keys baseDir dataDir [] rows

/-- The labelled item list before sorting (source lines 407-412): one pair
`(label, identifier)` per entry of the `titles` dict, in dict order, with
the label built by `format_item` from the optional author and year. -/
def itemsPreSort (titles authors years : List (Nat × String)) :
    List (String × Nat) :=
  titles.map (fun p => (format_item p.2 (authors.lookup p.1) (years.lookup p.1), p.1))

/-- Python tuple comparison `(label, id) <= (label, id)`: lexicographic on
the label's code points, then on the numeric identifier. -/
def pairLe (a b : String × Nat) : Prop :=
  a.1.data < b.1.data ∨ (a.1 = b.1 ∧ a.2 ≤ b.2)

instance : DecidableRel pairLe := fun a b => by
  unfold pairLe; infer_instance

instance : IsTotal (String × Nat) pairLe :=
  ⟨fun a b => by
    rcases lt_trichotomy a.1.data b.1.data with h | h | h
    · exact Or.inl (Or.inl h)
    · rcases Nat.le_total a.2 b.2 with h2 | h2
      · exact Or.inl (Or.inr ⟨String.ext h, h2⟩)
      · exact Or.inr (Or.inr ⟨(String.ext h).symm, h2⟩)
    · exact Or.inr (Or.inl h)⟩

instance : IsTrans (String × Nat) pairLe :=
  ⟨fun a b c hab hbc => by
    rcases hab with h1 | ⟨e1, le1⟩
    · rcases hbc with h2 | ⟨e2, _⟩
      · exact Or.inl (lt_trans h1 h2)
      · exact Or.inl (by rw [← e2]; exact h1)
    · rcases hbc with h2 | ⟨e2, le2⟩
      · exact Or.inl (by rw [e1]; exact h2)
      · exact Or.inr ⟨e1.trans e2, le1.trans le2⟩⟩

/-- Comparison of two catalog entries by display label only. -/
def labelLe (a b : String × Nat) : Prop :=
  ¬ b.1.data < a.1.data

/-- Python `item_list_with_ids.sort()` (source line 414): a stable sort of
`(label, identifier)` tuples under tuple comparison, modelled by insertion
sort, which computes the same (unique) stable sorted permutation. -/
def pySortItems (l : List (String × Nat)) : List (String × Nat) :=
  List.insertionSort pairLe l

/-- The sorted catalog handed to the first picker (source lines 407-415). -/
def itemListWithIds (titles authors years : List (Nat × String)) :
    List (String × Nat) :=
  pySortItems (itemsPreSort titles authors years)

/-- Comparison of two attachment paths in `files_to_open.sort()`: `a`
precedes `b` when `b` is not strictly below `a` in the lexicographic path
order. -/
def fileLe (a b : String) : Prop :=
  ¬ b.data < a.data

instance : DecidableRel fileLe := fun a b => by
  unfold fileLe; infer_instance

instance : IsTotal String fileLe :=
  ⟨fun a b => by
    by_cases h : b.data < a.data
    · exact Or.inr (lt_asymm h)
    · exact Or.inl h⟩

instance : IsTrans String fileLe :=
  ⟨fun a b c hab hbc => by
    intro hca
    rcases lt_trichotomy b.data c.data with h | h | h
    · exact hab (lt_trans h hca)
    · exact hab (by rw [h]; exact hca)
    · exact hbc h⟩

/-- Python `files_to_open.sort()` (source line 435): the selected item's
path list is sorted ascending before it is shown to the second picker. -/
def pySortFiles (l : List String) : List String :=
  List.insertionSort fileLe l

/-- Round-half-to-even (Python `round`) of the exact fraction
`num / den`. -/
def pyRoundHalfEven (num den : ℕ) : ℕ :=
  let q := num / den
  let r := num % den
  if 2 * r < den then q
  else if den < 2 * r then q + 1
  else if q % 2 = 0 then q else q + 1

/-- Python slice `s[:j]` for an arbitrary, possibly negative, bound. -/
def pyTakeSlice (s : String) (j : ℤ) : String :=
  if 0 ≤ j then ⟨s.data.take j.toNat⟩
  else ⟨s.data.take (s.data.length - min (-j).toNat s.data.length)⟩

/-- Python slice `s[i:]` for an arbitrary, possibly negative, start. -/
def pyDropSlice (s : String) (i : ℤ) : String :=
  if 0 ≤ i then ⟨s.data.drop i.toNat⟩
  else ⟨s.data.drop (s.data.length - min (-i).toNat s.data.length)⟩

/-- Source function `format_path` (lines 155-188): keep the file name (or
the full path when `fullpath` is set); return it unchanged when its length
is at most `maxlen`; otherwise build
`path_str[:char_start] + ellipsis + path_str[-char_end:]` where
`char_end = round(maxlen * ending_fraction) - 1` and
`char_start = maxlen - char_end - 1`.  The float `ending_fraction` is
modelled exactly by the fraction `efNum / efDen`. -/
def format_path (path : String) (maxlen : ℕ) (fullpath : Bool)
    (efNum efDen : ℕ) : String :=
  let path_str := if fullpath then path else pathName path
  if path_str.data.length ≤ maxlen then path_str
  else
    let char_end : ℤ := (pyRoundHalfEven (maxlen * efNum) efDen : ℤ) - 1
    let char_start : ℤ := (maxlen : ℤ) - char_end - 1
    pyTakeSlice path_str char_start ++ ("…") ++ pyDropSlice path_str (-char_end)

/-- The body of `format_path` after the choice of `path_str`, with the
computed `char_end` and `char_start` abstracted; `format_path` is
definitionally this applied to its local values. -/
def formatPathCore (ps : String) (maxlen : ℕ) (ce cs : ℤ) : String :=
  if ps.data.length ≤ maxlen then ps
  else pyTakeSlice ps cs ++ ("…") ++ pyDropSlice ps (-ce)

/-- Observable outcome of the final open step. -/
structure FinalOutcome where
  openedWith : Option (String × String)
  errorShown : Option String
  exitCode : Nat

/-- The final step of `main` (source lines 458-461): open the file with
the viewer when it exists, otherwise print and display the error message.
The script's top level (lines 464-466) never sets a process exit status,
so the exit code is 0 on both branches. -/
def finalStep (fileExists : Bool) (viewer fileToOpen : String) : FinalOutcome :=
  if fileExists then
    { openedWith := some (viewer, fileToOpen), errorShown := none, exitCode := 0 }
  else
    { openedWith := none,
      errorShown := some (("Could not find file: ") ++ fileToOpen),
      exitCode := 0 }

/-! ### Helper lemmas -/

theorem isPrefixOf_append_self (l₁ l₂ : List Char) :
    l₁.isPrefixOf (l₁ ++ l₂) = true := by
  induction l₁ with
  | nil => simp [List.isPrefixOf]
  | cons a as ih => simp [List.isPrefixOf, ih]

theorem isPrefixOf_cons_false {a b : Char} (as bs : List Char) (h : ¬ a = b) :
    (a :: as).isPrefixOf (b :: bs) = false := by
  simp [List.isPrefixOf, h]

theorem pyStartswith_append (pre rest : String) :
    pyStartswith (pre ++ rest) pre = true := by
  unfold pyStartswith
  rw [String.data_append]
  exact isPrefixOf_append_self pre.data rest.data

theorem removeFirst_append (pat rest : List Char) :
    removeFirst pat (pat ++ rest) = rest := by
  cases pat with
  | nil =>
    cases rest with
    | nil => rfl
    | cons c cs => simp [removeFirst, List.isPrefixOf]
  | cons p ps =>
    have hpre : (p :: ps).isPrefixOf (p :: (ps ++ rest)) = true := by
      rw [← List.cons_append]
      exact isPrefixOf_append_self (p :: ps) rest
    simp [removeFirst, hpre, List.drop_left]

theorem pyReplaceFirst_append (pre rest : String) :
    pyReplaceFirst (pre ++ rest) pre = rest := by
  unfold pyReplaceFirst
  rw [String.data_append, removeFirst_append]

theorem storage_not_attachments (rest : String) :
    pyStartswith (("storage:") ++ rest) ("attachments:") = false := by
  show (("attachments:").data).isPrefixOf ((("storage:") ++ rest).data) = false
  rw [String.data_append]
  show (('a') :: ("ttachments:").data).isPrefixOf
    (('s') :: (("torage:").data ++ rest.data)) = false
  exact isPrefixOf_cons_false _ _ (by decide)

theorem format_path_eq_core (path : String) (maxlen : ℕ) (fullpath : Bool)
    (efNum efDen : ℕ) :
    format_path path maxlen fullpath efNum efDen
      = formatPathCore (if fullpath then path else pathName path) maxlen
          ((pyRoundHalfEven (maxlen * efNum) efDen : ℤ) - 1)
          ((maxlen : ℤ) - ((pyRoundHalfEven (maxlen * efNum) efDen : ℤ) - 1) - 1) := rfl

/-! ### Claim theorems -/

/-- C1: the claim states that the author reconciliation yields exactly one
entry per distinct identifier, including the final contiguous run.  The
code drops the final run: it never flushes the running group after the
loop.  Evidence at the failing input `[(1, "A"), (2, "B")]` (two runs):
the resulting map has an entry for identifier 1 only, and no entry for
the final identifier 2. -/
theorem c1_final_author_group_dropped :
    authorsRecon [(1, ("A")), (2, ("B"))] = some [(1, ("A"))]
    ∧ (authorsRecon [(1, ("A")), (2, ("B"))]).map (fun m => m.lookup 2) = some none := by
  decide

/-- C7: the claim states that reconciliation over an empty AuthorRow
sequence reaches a controlled empty-result state and does not raise on its
first access.  The code evaluates `all_authors[0][0]` first, which raises
`IndexError` on an empty list; the embedding returns `none` (uncaught
exception) instead of an empty map. -/
theorem c7_empty_author_rows_raise :
    authorsRecon [] = none := rfl

/-- C2: path resolution is a pure function of the raw expression, the
attachment base directory, the data directory and the storage key: an
`attachments:`-prefixed expression resolves to the remainder joined to the
base directory, a `storage:`-prefixed expression resolves to the remainder
joined under `dataDir/storage/key`, and any other expression resolves to
itself verbatim. -/
theorem c2_path_resolution_cases (key baseDir dataDir : String) :
    (∀ rest, resolvePath key baseDir dataDir (("attachments:") ++ rest)
        = pjoin baseDir rest)
    ∧ (∀ rest, resolvePath key baseDir dataDir (("storage:") ++ rest)
        = pjoin (pjoin (pjoin dataDir ("storage")) key) rest)
    ∧ (∀ raw, pyStartswith raw ("attachments:") = false →
        pyStartswith raw ("storage:") = false →
        resolvePath key baseDir dataDir raw = raw) := by
  refine ⟨fun rest => ?_, fun rest => ?_, fun raw h1 h2 => ?_⟩
  · simp [resolvePath, pyStartswith_append, pyReplaceFirst_append]
  · simp [resolvePath, storage_not_attachments, pyStartswith_append,
      pyReplaceFirst_append]
  · simp [resolvePath, h1, h2]

/-- Witness for C2 at the concrete inputs named by the specification. -/
theorem c2_path_resolution_witness :
    resolvePath ("ABCD1234") ("/base") ("/zotero") (("attachments:") ++ ("foo/bar.pdf"))
        = ("/base/foo/bar.pdf")
    ∧ resolvePath ("ABCD1234") ("/base") ("/zotero") (("storage:") ++ ("bar.pdf"))
        = ("/zotero/storage/ABCD1234/bar.pdf")
    ∧ resolvePath ("ABCD1234") ("/base") ("/zotero") ("/already/absolute.pdf")
        = ("/already/absolute.pdf") := by
  refine ⟨?_, ?_, ?_⟩
  · rw [(c2_path_resolution_cases ("ABCD1234") ("/base") ("/zotero")).1 ("foo/bar.pdf")]
    decide
  · rw [(c2_path_resolution_cases ("ABCD1234") ("/base") ("/zotero")).2.1 ("bar.pdf")]
    decide
  · exact (c2_path_resolution_cases ("ABCD1234") ("/base") ("/zotero")).2.2
      ("/already/absolute.pdf") (by decide) (by decide)

/-- C4: the claim states that two PathRows of one identifier resolving to
the same absolute path contribute only one entry.  The code's
deduplication test (line 391) compares the `str()` of the whole list of
already-recorded resolved paths with the raw, unresolved expression, so it
never fires: at the failing input of two identical rows
`(1, "storage:f.pdf")` the same resolved path is appended twice. -/
theorem c4_duplicate_path_appended_twice :
    pathsFold [(1, ("K"))] ("/base") ("/zotero")
        [(1, some ("storage:f.pdf")), (1, some ("storage:f.pdf"))]
      = some [(1, [("/zotero/storage/K/f.pdf"), ("/zotero/storage/K/f.pdf")])] := by
  decide

/-- C6: the claim states that an item enters the catalog only with at
least one non-null resolvable PathRow, so a path lookup for a selected
item always succeeds.  The title and path queries share the same join, but
the join does not exclude rows whose `path` column is NULL: at the failing
input of one title row `(1, "T", "K")` and one null path row `(1, None)`,
identifier 1 is in the titles dict and in the sorted catalog, while the
paths dict is empty, so `paths[item_id]` on selection raises `KeyError`. -/
theorem c6_null_path_item_in_catalog_without_paths :
    titlesKeysFold [(1, ("T"), ("K"))] = ([(1, ("T"))], [(1, ("K"))])
    ∧ itemListWithIds [(1, ("T"))] [] [] = [(("Unknown - T"), 1)]
    ∧ pathsFold [(1, ("K"))] ("/base") ("/zotero") [(1, none)] = some []
    ∧ (pathsFold [(1, ("K"))] ("/base") ("/zotero") [(1, none)]).map
        (fun m => m.lookup 1) = some none := by
  decide

/-- C3 counterexample: the claim states the catalog sort is stable with
respect to the original input order for equal labels.  The code sorts
`(label, identifier)` tuples, so equal labels are tie-broken by the
numeric identifier: from titles `[(5, "T"), (3, "T")]` with equal authors
the pre-sort order is `[("X - T", 5), ("X - T", 3)]`, but the sorted
catalog is `[("X - T", 3), ("X - T", 5)]`, reversing the original
relative order of the two equal-label entries. -/
theorem c3_equal_labels_reordered_by_id :
    itemsPreSort [(5, ("T")), (3, ("T"))] [(5, ("X")), (3, ("X"))] []
      = [(("X - T"), 5), (("X - T"), 3)]
    ∧ itemListWithIds [(5, ("T")), (3, ("T"))] [(5, ("X")), (3, ("X"))] []
      = [(("X - T"), 3), (("X - T"), 5)]
    ∧ itemListWithIds [(5, ("T")), (3, ("T"))] [(5, ("X")), (3, ("X"))] []
      ≠ itemsPreSort [(5, ("T")), (3, ("T"))] [(5, ("X")), (3, ("X"))] [] := by
  decide

/-- C3 amended: the catalog handed to the first picker is a permutation of
the labelled item list sorted ascending by the `(label, identifier)` tuple
order: lexicographically by display label and, for equal labels, by
numeric identifier.  In particular it is sorted by display label; the
original relative order of equal-label entries is preserved only when
their identifiers are also equal. -/
theorem c3_catalog_sorted_by_label_then_id (l : List (String × Nat)) :
    List.Perm (pySortItems l) l
    ∧ List.Sorted pairLe (pySortItems l)
    ∧ List.Sorted labelLe (pySortItems l) := by
  refine ⟨List.perm_insertionSort pairLe l, List.sorted_insertionSort pairLe l, ?_⟩
  refine List.Pairwise.imp ?_ (List.sorted_insertionSort pairLe l)
  intro a b hab
  rcases hab with h | ⟨e, _⟩
  · exact lt_asymm h
  · show ¬ b.1.data < a.1.data
    rw [e]
    exact lt_irrefl _

/-- C5 counterexample: the claim states the insertion order of an item's
resolved paths is unchanged up to the second picker.  The paths dict does
record `/b.pdf` before `/a.pdf` in encounter order, but the code sorts
`files_to_open` before showing it to the second picker, so the presented
(and indexed) order is `["/a.pdf", "/b.pdf"]`, not the insertion order. -/
theorem c5_presented_order_not_insertion_order :
    pathsFold [(1, ("K"))] ("/base") ("/zotero")
        [(1, some ("/b.pdf")), (1, some ("/a.pdf"))]
      = some [(1, [("/b.pdf"), ("/a.pdf")])]
    ∧ pySortFiles [("/b.pdf"), ("/a.pdf")] = [("/a.pdf"), ("/b.pdf")]
    ∧ pySortFiles [("/b.pdf"), ("/a.pdf")] ≠ [("/b.pdf"), ("/a.pdf")] := by
  decide

theorem lookup_map_update (k : Nat) (v : String) (j : Nat) :
    ∀ m : List (Nat × List String),
      (m.map (fun p => if p.1 = k then (p.1, p.2 ++ [v]) else p)).lookup j
        = if j = k then (m.lookup k).map (fun l => l ++ [v]) else m.lookup j := by
  intro m
  induction m with
  | nil => simp
  | cons p rest ih =>
    obtain ⟨pk, pl⟩ := p
    by_cases hpk : pk = k
    · subst hpk
      by_cases hj : j = pk
      · subst hj
        simp [List.lookup_cons]
      · have hb : (j == pk) = false := by simp [hj]
        simp [List.lookup_cons, hb, hj, ih]
    · by_cases hj : j = pk
      · subst hj
        have hjk : ¬ j = k := hpk
        simp [List.lookup_cons, hpk, hjk]
      · have hb : (j == pk) = false := by simp [hj]
        have hbk : (k == pk) = false := by simp [Ne.symm hpk]
        simp [List.lookup_cons, hpk, hb, hbk, ih]

theorem lookup_append_absent (k : Nat) (v : String) (j : Nat)
    (m : List (Nat × List String)) (hk : m.lookup k = none) :
    (m ++ [(k, [v])]).lookup j = if j = k then some [v] else m.lookup j := by
  rw [List.lookup_append]
  by_cases hj : j = k
  · subst hj
    rw [hk]
    simp
  · have hb : (j == k) = false := by simp [hj]
    have hnone : ([(k, [v])] : List (Nat × List String)).lookup j = none := by
      simp [List.lookup_cons, hb]
    rw [hnone]
    simp [hj]

/-- Effect of one dict-append (source lines 403-405) on every lookup: the
updated identifier's list grows by the new path at the tail, every other
entry is unchanged. -/
theorem lookup_dappend (m : List (Nat × List String)) (k : Nat) (v : String) (j : Nat) :
    (dappend m k v).lookup j
      = if j = k then some (((m.lookup k).getD []) ++ [v]) else m.lookup j := by
  unfold dappend
  by_cases hk : (m.lookup k).isSome
  · rw [if_pos hk, lookup_map_update]
    by_cases hj : j = k
    · rw [if_pos hj, if_pos hj]
      obtain ⟨l, hl⟩ := Option.isSome_iff_exists.mp hk
      rw [hl]
      rfl
    · rw [if_neg hj, if_neg hj]
  · have hknone : m.lookup k = none := Option.not_isSome_iff_eq_none.mp hk
    rw [if_neg hk, lookup_append_absent k v j m hknone]
    by_cases hj : j = k
    · rw [if_pos hj, if_pos hj, hknone]
      rfl
    · rw [if_neg hj, if_neg hj]

theorem dappend_extends (m : List (Nat × List String)) (k : Nat) (v : String)
    (j : Nat) (l : List String) (hl : m.lookup j = some l) :
    ∃ t, (dappend m k v).lookup j = some (l ++ t) := by
  rw [lookup_dappend]
  by_cases hj : j = k
  · subst hj
    rw [if_pos rfl, hl]
    exact ⟨[v], rfl⟩
  · rw [if_neg hj, hl]
    exact ⟨[], by rw [List.append_nil]⟩

theorem pathsStep_extends (keys : List (Nat × String)) (baseDir dataDir : String)
    (acc : List (Nat × List String)) (pid : Nat) (raw : String)
    (acc2 : List (Nat × List String))
    (hst : pathsStep keys baseDir dataDir acc pid raw = some acc2)
    (j : Nat) (l : List String) (hl : acc.lookup j = some l) :
    ∃ t, acc2.lookup j = some (l ++ t) := by
  unfold pathsStep at hst
  split at hst
  · injection hst with h
    subst h
    exact dappend_extends acc pid _ j l hl
  · split at hst
    · split at hst
      · exact Option.noConfusion hst
      · injection hst with h
        subst h
        exact dappend_extends acc pid _ j l hl
    · injection hst with h
      subst h
      exact dappend_extends acc pid _ j l hl

/-- Along the whole path loop, an already-recorded list is only ever
extended at its tail: no recorded path is removed, reordered, or
preceded by a later one. -/
theorem pathsGo_extends (keys : List (Nat × String)) (baseDir dataDir : String) :
    ∀ rows acc m, pathsGo keys baseDir dataDir acc rows = some m →
      ∀ j l, acc.lookup j = some l → ∃ t, m.lookup j = some (l ++ t) := by
  intro rows
  induction rows with
  | nil =>
    intro acc m h j l hl
    simp only [pathsGo, Option.some.injEq] at h
    subst h
    exact ⟨[], by rw [List.append_nil, hl]⟩
  | cons row rest ih =>
    intro acc m h j l hl
    obtain ⟨pid, praw⟩ := row
    cases praw with
    | none =>
      simp only [pathsGo] at h
      exact ih acc m h j l hl
    | some raw =>
      simp only [pathsGo] at h
      by_cases hdup : (acc.lookup pid).isSome
          ∧ pyStrPathList ((acc.lookup pid).getD []) = raw
      · rw [if_pos hdup] at h
        exact ih acc m h j l hl
      · rw [if_neg hdup] at h
        cases hst : pathsStep keys baseDir dataDir acc pid raw with
        | none =>
          rw [hst] at h
          exact Option.noConfusion h
        | some acc2 =>
          rw [hst] at h
          obtain ⟨t1, ht1⟩ :=
            pathsStep_extends keys baseDir dataDir acc pid raw acc2 hst j l hl
          obtain ⟨t2, ht2⟩ := ih acc2 m h j (l ++ t1) ht1
          exact ⟨t1 ++ t2, by rw [ht2, List.append_assoc]⟩

/-- The path loop processes a concatenation of row segments as the
composition of the runs over each segment. -/
theorem pathsGo_append_rows (keys : List (Nat × String)) (baseDir dataDir : String) :
    ∀ rows1 acc rows2,
      pathsGo keys baseDir dataDir acc (rows1 ++ rows2)
        = (pathsGo keys baseDir dataDir acc rows1).bind
            (fun m1 => pathsGo keys baseDir dataDir m1 rows2) := by
  intro rows1
  induction rows1 with
  | nil =>
    intro acc rows2
    simp [pathsGo]
  | cons row rest ih =>
    intro acc rows2
    obtain ⟨pid, praw⟩ := row
    cases praw with
    | none =>
      simp only [List.cons_append, pathsGo]
      exact ih acc rows2
    | some raw =>
      simp only [List.cons_append, pathsGo]
      by_cases hdup : (acc.lookup pid).isSome
          ∧ pyStrPathList ((acc.lookup pid).getD []) = raw
      · rw [if_pos hdup, if_pos hdup]
        exact ih acc rows2
      · rw [if_neg hdup, if_neg hdup]
        cases hst : pathsStep keys baseDir dataDir acc pid raw with
        | none => simp
        | some acc2 => exact ih acc2 rows2

/-- C5 amended: the paths dict preserves the insertion order of first
resolution — after any initial segment of the PathRow sequence, each
identifier's already-recorded list persists, in place and in order, as an
initial run of its finally recorded list, later rows only appending at
the tail — but the list presented to the second picker (and indexed by
its result) is the ascending sort of the selected item's recorded list: a
permutation of it, sorted in the lexicographic path order. -/
theorem c5_insertion_order_kept_then_sorted
    (keys : List (Nat × String)) (baseDir dataDir : String) :
    (∀ rows1 rows2 m1 m,
        pathsFold keys baseDir dataDir rows1 = some m1 →
        pathsFold keys baseDir dataDir (rows1 ++ rows2) = some m →
        ∀ j l, m1.lookup j = some l → ∃ t, m.lookup j = some (l ++ t))
    ∧ (∀ l : List String, List.Perm (pySortFiles l) l
        ∧ List.Sorted fileLe (pySortFiles l)) := by
  constructor
  · intro rows1 rows2 m1 m h1 h2 j l hl
    unfold pathsFold at h1 h2
    rw [pathsGo_append_rows, h1] at h2
    exact pathsGo_extends keys baseDir dataDir rows2 m1 m h2 j l hl
  · exact fun l => ⟨List.perm_insertionSort fileLe l, List.sorted_insertionSort fileLe l⟩

/-- Witness for C5: recording `/b.pdf` and then `/a.pdf` for identifier 1
leaves the earlier path in front — the final list extends the one-element
list recorded after the first row. -/
theorem c5_insertion_order_witness :
    ∃ t, ([((1 : Nat), [("/b.pdf"), ("/a.pdf")])] : List (Nat × List String)).lookup 1
      = some ([("/b.pdf")] ++ t) :=
  (c5_insertion_order_kept_then_sorted [(1, ("K"))] ("/base") ("/zotero")).1
    [(1, some ("/b.pdf"))] [(1, some ("/a.pdf"))]
    [(1, [("/b.pdf")])] [(1, [("/b.pdf"), ("/a.pdf")])]
    (by decide) (by decide) 1 [("/b.pdf")] (by decide)

/-- C9 counterexample: the claim states the process exits non-zero when
the selected path does not exist.  At a concrete missing file the error
message is shown and the opener is not invoked, but the script never sets
an exit status, so the process exit code is 0, not non-zero. -/
theorem c9_exit_code_is_zero :
    (finalStep false ("xdg-open %u") ("/missing.pdf")).errorShown
        = some ("Could not find file: /missing.pdf")
    ∧ (finalStep false ("xdg-open %u") ("/missing.pdf")).openedWith = none
    ∧ (finalStep false ("xdg-open %u") ("/missing.pdf")).exitCode = 0 := by
  decide

/-- C9 amended: when the finally selected resolved path does not exist at
open time, a user-visible error message naming the file is shown and the
opener is never invoked, but the process exits with code 0 (the script
sets no exit status on this branch). -/
theorem c9_missing_file_shows_error_opens_nothing (viewer file : String) :
    (finalStep false viewer file).errorShown = some (("Could not find file: ") ++ file)
    ∧ (finalStep false viewer file).openedWith = none
    ∧ (finalStep false viewer file).exitCode = 0 :=
  ⟨rfl, rfl, rfl⟩

/-- C10: the item-label formatter selects templates by Python truthiness,
so an empty author string or an empty year string behaves exactly like an
absent one; and a kept date string that is empty or begins with a dash
yields an empty year substring, so the label uses the without-year
template even though a date row exists. -/
theorem c10_empty_strings_treated_as_absent :
    (∀ t y, format_item t (some ("")) y = format_item t none y)
    ∧ (∀ t a, format_item t a (some ("")) = format_item t a none)
    ∧ (∀ t a d, (d = ("") ∨ ∃ rest, d = ("-") ++ rest) →
        pySplitFirst d = ("")
        ∧ format_item t a (some (pySplitFirst d)) = format_item t a none) := by
  have h2 : ∀ t a, format_item t a (some ("")) = format_item t a none :=
    fun t a => rfl
  refine ⟨fun t y => rfl, h2, fun t a d hd => ?_⟩
  have hsplit : pySplitFirst d = ("") := by
    rcases hd with h | ⟨rest, h⟩
    · rw [h]
      rfl
    · rw [h]
      show (⟨headBefore '-' ((("-") ++ rest).data)⟩ : String) = ("")
      rw [String.data_append]
      rfl
  refine ⟨hsplit, ?_⟩
  rw [hsplit]
  exact h2 t a

/-- Witness for C10: the kept date string "-2020" produces an empty year,
and the label built from it equals the label built with no year at all. -/
theorem c10_witness :
    pySplitFirst ("-2020") = ("")
    ∧ format_item ("T") (some ("X")) (some (pySplitFirst ("-2020")))
        = format_item ("T") (some ("X")) none :=
  (c10_empty_strings_treated_as_absent).2.2 ("T") (some ("X")) ("-2020")
    (Or.inr ⟨("2020"), by decide⟩)

/-- C8: for a path string longer than `maxlen` the shortened display
string is the first `char_start` characters, one ellipsis character, and
the last `char_end` characters of the original, with
`char_end = round(maxlen * ending_fraction) - 1` and
`char_start = maxlen - char_end - 1`, and its total length is exactly
`maxlen`; a path string of length at most `maxlen` is returned unchanged.
The side conditions `1 ≤ char_end` and `0 ≤ char_start` hold at every
configuration the program uses (maxlen 80, fraction one half, where
`char_end = 39` and `char_start = 40`) and at the claim's example
(maxlen 10, where `char_end = 4` and `char_start = 5`). -/
theorem c8_format_path_spec (path : String) (maxlen efNum efDen : ℕ)
    (fullpath : Bool) (ps : String)
    (hps : ps = if fullpath then path else pathName path)
    (ce cs : ℤ)
    (hce : ce = (pyRoundHalfEven (maxlen * efNum) efDen : ℤ) - 1)
    (hcs : cs = (maxlen : ℤ) - ce - 1) :
    (ps.data.length ≤ maxlen → format_path path maxlen fullpath efNum efDen = ps)
    ∧ (maxlen < ps.data.length → 1 ≤ ce → 0 ≤ cs →
        format_path path maxlen fullpath efNum efDen
          = String.mk (ps.data.take cs.toNat) ++ ("…")
              ++ String.mk (ps.data.drop (ps.data.length - ce.toNat))
        ∧ (format_path path maxlen fullpath efNum efDen).data.length = maxlen) := by
  have hfp : format_path path maxlen fullpath efNum efDen = formatPathCore ps maxlen ce cs := by
    rw [format_path_eq_core, ← hps, ← hce, ← hcs]
  constructor
  · intro h
    rw [hfp]
    unfold formatPathCore
    rw [if_pos h]
  · intro h1 h2 h3
    have e1 : pyTakeSlice ps cs = String.mk (ps.data.take cs.toNat) := by
      unfold pyTakeSlice
      rw [if_pos h3]
    have hcelen : ce.toNat ≤ ps.data.length := by omega
    have e2 : pyDropSlice ps (-ce)
        = String.mk (ps.data.drop (ps.data.length - ce.toNat)) := by
      unfold pyDropSlice
      rw [if_neg (by omega : ¬ (0 : ℤ) ≤ -ce), neg_neg, min_eq_left hcelen]
    have hmain : format_path path maxlen fullpath efNum efDen
        = String.mk (ps.data.take cs.toNat) ++ ("…")
            ++ String.mk (ps.data.drop (ps.data.length - ce.toNat)) := by
      rw [hfp]
      unfold formatPathCore
      rw [if_neg (by omega : ¬ ps.data.length ≤ maxlen), e1, e2]
    refine ⟨hmain, ?_⟩
    rw [hmain, String.data_append, String.data_append]
    simp only [List.length_append, List.length_take, List.length_drop]
    have hell : ("…" : String).data.length = 1 := rfl
    rw [hell]
    omega

/-- Witness for C8, the claim's own example: a 20-character name shortened
with maxlen 10 and ending fraction one half gives the 5 leading
characters, one ellipsis, and the 4 trailing characters, of total length
exactly 10. -/
theorem c8_witness :
    format_path ("abcdefghijklmnopqrst") 10 true 1 2 = ("abcde…qrst")
    ∧ (format_path ("abcdefghijklmnopqrst") 10 true 1 2).data.length = 10 := by
  have h := (c8_format_path_spec ("abcdefghijklmnopqrst") 10 1 2 true
      ("abcdefghijklmnopqrst") (by decide) 4 5 (by decide) (by decide)).2
      (by decide) (by decide) (by decide)
  exact ⟨by rw [h.1]; decide, h.2⟩
